import Mathlib

/-!
Verification of the client-side synchronization layer of the Innoaite_Spartanz
dashboard: the TrafficContext provider (polling tiers, simulation step,
emergency command, auto-step loop) from
Frontend/react-app/src/context/TrafficContext.jsx, and the WebRTC stream
connection manager from Frontend/react-app/src/components/WebRTCPlayer.jsx.

Remote calls are modelled by passing each handler the settled outcome of its
awaited request as an explicit argument of type Except: the handler body is a
direct translation of the JavaScript try/catch. JavaScript objects whose keys
matter to the claims are modelled as structures with Option fields, where
none stands for an absent key (reading an absent key yields undefined).
-/

/-- Mapping approach identifier to a vehicle count (a plain JS object). -/
abbrev CountMap := List (String × Nat)

/-- Shape of the health endpoint response body (flags spread into state). -/
structure HealthResp where
  models_loaded : Bool
  sumo_running : Bool
  emergency_active : Bool
  emergency_direction : Option String
deriving DecidableEq, Repr

/-- The health slice of the store: the response flags plus a status string
(one of "Unknown", "Online", "Offline"). -/
structure Health where
  status : String
  models_loaded : Bool
  sumo_running : Bool
  emergency_active : Bool
  emergency_direction : Option String
deriving DecidableEq, Repr

/-- The yoloAction slice: the most recent AI action record. -/
structure YoloRecord where
  action : Option String
  source : String
  counts : Option CountMap
deriving DecidableEq, Repr

/-- The alerts slice: current alert plus history, most recent first. -/
structure Alerts where
  current : Option String
  history : List String
deriving DecidableEq, Repr

/-- The violations slice: ordered log plus active-stationary map. -/
structure Violations where
  violations : List String
  active_stationary : List (String × Nat)
deriving DecidableEq, Repr

/-- The emergency slice: active flag, direction, remaining duration. -/
structure Emergency where
  active : Bool
  direction : Option String
  remaining_seconds : Nat
deriving DecidableEq, Repr

/-- Fields of the sumo slot of the cached summary. After a step response is
patched in, its keys coincide with the step-response keys, so the relevant
fields are the same as those of Metrics. -/
structure SumoViz where
  vehicle_count : Option CountMap
  action : Option String
  viz : Option String
deriving DecidableEq, Repr

/-- The intelligence summary slice: narrative text plus nested simulation
context and the sumo visualization slot. -/
structure Summary where
  narrative : Option String
  context : Option (List (String × String))
  sumo : Option SumoViz
deriving DecidableEq, Repr

/-- Step response (metrics) returned by api.stepSumo. A none field stands
for a key absent from the response body. -/
structure Metrics where
  vehicle_count : Option CountMap
  action : Option String
  viz : Option String
deriving DecidableEq, Repr

/-- The shared sync state owned by TrafficProvider: one field per useState
slice that the claims concern. -/
structure SyncState where
  data : CountMap
  health : Health
  yoloAction : Option YoloRecord
  summary : Option Summary
  autoStep : Bool
  alerts : Alerts
  violations : Violations
  emergency : Emergency
  simSpeed : Nat
deriving DecidableEq, Repr

/-- fetchData (TrafficContext.jsx lines 22-27): on success overwrite the
data slice; the catch only logs, leaving the state untouched. -/
def fetchData (r : Except Unit CountMap) (st : SyncState) : SyncState :=
  match r with
  | Except.ok res => { st with data := res }
  | Except.error _ => st

/-- fetchHealth (lines 29-36): on success spread the response and mark the
status "Online"; the catch replaces the status with "Offline", keeping the
other health fields from the previous value. -/
def fetchHealth (r : Except Unit HealthResp) (st : SyncState) : SyncState :=
  match r with
  | Except.ok h =>
      { st with health :=
        { status := "Online"
          models_loaded := h.models_loaded
          sumo_running := h.sumo_running
          emergency_active := h.emergency_active
          emergency_direction := h.emergency_direction } }
  | Except.error _ =>
      { st with health := { st.health with status := "Offline" } }

/-- fetchYoloAction (lines 38-43): overwrite on success, log-only catch. -/
def fetchYoloAction (r : Except Unit YoloRecord) (st : SyncState) : SyncState :=
  match r with
  | Except.ok res => { st with yoloAction := some res }
  | Except.error _ => st

/-- fetchSummary (lines 45-50): overwrite on success, log-only catch. -/
def fetchSummary (r : Except Unit Summary) (st : SyncState) : SyncState :=
  match r with
  | Except.ok res => { st with summary := some res }
  | Except.error _ => st

/-- fetchAlerts (lines 52-57): overwrite on success, log-only catch. -/
def fetchAlerts (r : Except Unit Alerts) (st : SyncState) : SyncState :=
  match r with
  | Except.ok res => { st with alerts := res }
  | Except.error _ => st

/-- fetchViolations (lines 59-64): overwrite on success, log-only catch. -/
def fetchViolations (r : Except Unit Violations) (st : SyncState) : SyncState :=
  match r with
  | Except.ok res => { st with violations := res }
  | Except.error _ => st

/-- fetchEmergency (lines 66-71): overwrite on success, log-only catch. -/
def fetchEmergency (r : Except Unit Emergency) (st : SyncState) : SyncState :=
  match r with
  | Except.ok res => { st with emergency := res }
  | Except.error _ => st

/-- triggerEmergency (lines 73-79): awaits the emergency write, then calls
fetchEmergency and fetchHealth; the catch logs and swallows the error, so
the promise the caller awaits resolves normally in both branches. The first
argument is the outcome of the write, the next two the outcomes of the two
follow-up reads; the second component of the result is what the awaiting
caller observes. -/
def triggerEmergency (w : Except Unit Unit) (er : Except Unit Emergency)
    (hr : Except Unit HealthResp) (st : SyncState) : SyncState × Except Unit Unit :=
  match w with
  | Except.ok _ => (fetchHealth hr (fetchEmergency er st), Except.ok ())
  | Except.error _ => (st, Except.ok ())

/-- An empty JS object in the sumo slot. -/
def emptySumo : SumoViz := { vehicle_count := none, action := none, viz := none }

/-- The merged sumo slot built at lines 103-107 by spreading the previous
slot, then the whole metrics object, then assigning viz from metrics. A key
present in metrics overwrites; a key absent from metrics is kept from the
previous slot; viz is assigned unconditionally from metrics (so an absent
metrics.viz clears a previously cached viz). -/
def mergeSumo (prev : SumoViz) (m : Metrics) : SumoViz :=
  { vehicle_count := m.vehicle_count <|> prev.vehicle_count
    action := m.action <|> prev.action
    viz := m.viz }

/-- The summary updater at lines 96-110: copy the previous summary (or start
from an empty object), ensure context and sumo slots exist, and replace the
sumo slot with the merged one. -/
def patchSummary (prev : Option Summary) (m : Metrics) : Summary :=
  let ns := prev.getD { narrative := none, context := none, sumo := none }
  { ns with
    context := some (ns.context.getD [])
    sumo := some (mergeSumo (ns.sumo.getD emptySumo) m) }

/-- runSimStep (lines 81-116): the argument is the settled outcome of
api.stepSumo, with a falsy response body modelled as Except.ok none. On a
truthy response the data, yoloAction and summary slices are updated; on a
falsy response nothing happens; the catch logs and disables autoStep. -/
def runSimStep (r : Except Unit (Option Metrics)) (st : SyncState) : SyncState :=
  match r with
  | Except.error _ => { st with autoStep := false }
  | Except.ok none => st
  | Except.ok (some m) =>
      { st with
        data := m.vehicle_count.getD []
        yoloAction := some { action := m.action, source := "SUMO", counts := m.vehicle_count }
        summary := some (patchSummary st.summary m) }

/-- Dependencies of the auto-step effect (lines 159-165). -/
structure AutoStepDeps where
  autoStep : Bool
  sumoRunning : Bool
  simSpeed : Nat
deriving DecidableEq, Repr

/-- Body of the auto-step effect (lines 159-165): the interval installed for
the given dependency values, as the period of the installed setInterval, or
none when no interval is installed. -/
def autoStepInterval (auto running : Bool) (speed : Nat) : Option Nat :=
  if auto && running then some speed else none

/-- React effect protocol for the auto-step effect: on every dependency
change the cleanup clears the previously installed interval and the effect
body installs the interval determined by the new dependency values. The
result is the interval installed after processing the whole dependency
history. -/
def runAutoStepEffects (ds : List AutoStepDeps) : Option Nat :=
  ds.foldl (fun _ d => autoStepInterval d.autoStep d.sumoRunning d.simSpeed) none

/-- Period of the fast polling tier (setInterval at line 136). -/
def fastPeriod : Nat := 1000

/-- Period of the summary polling tier (setInterval at line 154). -/
def summaryPeriod : Nat := 60000

/-- Fire times of a JS setInterval with the given period: the first fire one
period after installation, then one every period, regardless of any pending
asynchronous work started by earlier fires. -/
def setIntervalFire (period n : Nat) : Nat := (n + 1) * period

/-- Fire times of the fast tier timer (lines 130-138). -/
def fastFire (n : Nat) : Nat := setIntervalFire fastPeriod n

/-- Fire times of the summary tier timer (lines 152-156). -/
def summaryFire (n : Nat) : Nat := setIntervalFire summaryPeriod n

/-- Delay chosen by the medium tier at line 145 from the sumo-running flag
read at fire time. -/
def mediumDelay (running : Bool) : Nat := if running then 1000 else 5000

/-- Fire times of the medium tier (lines 141-150): the first setTimeout is
installed with delay 5000; each tick starts its fetches and immediately
schedules the next timeout, without waiting for the fetches to settle. The
argument gives the sumo-running flag observed at the nth tick. -/
def mediumFire (running : Nat → Bool) : Nat → Nat
  | 0 => 5000
  | n + 1 => mediumFire running n + mediumDelay (running n)

/-- A fetch launched at time fire with the given latency is still in flight
at time t. -/
def inFlight (fire latency t : Nat) : Prop := fire ≤ t ∧ t < fire + latency

instance (fire latency t : Nat) : Decidable (inFlight fire latency t) :=
  inferInstanceAs (Decidable (fire ≤ t ∧ t < fire + latency))

/-- Retry budget of the WebRTC player (WebRTCPlayer.jsx line 11). -/
def MAX_RETRIES : Nat := 3

/-- Connection status values used by the player component. -/
inductive ConnStatus
  | connecting
  | connected
  | failed
  | error
deriving DecidableEq, Repr

/-- Component state of one WebRTCPlayer instance: retry counter, status and
last error message. -/
structure PlayerState where
  retryCount : Nat
  status : ConnStatus
  err : Option String
deriving DecidableEq, Repr

/-- Initial player state (lines 8-10). -/
def initPlayer : PlayerState :=
  { retryCount := 0, status := ConnStatus.connecting, err := none }

/-- State of the retry machinery of one player instance: the component
state plus the number of backoff timers scheduled by the catch of
startStream that have not yet fired. The effect cleanup (lines 120-124)
closes the peer connection but never cancels such a timer. -/
structure RetryState where
  retryCount : Nat
  status : ConnStatus
  err : Option String
  pending : Nat
deriving DecidableEq, Repr

/-- Events acting on the retry state. attemptStart is the head of
startStream (lines 15-16, also re-run by the effect when retryCount
changes); trackReceived is the ontrack handler with the video element
mounted (lines 33-47); connDrop is onconnectionstatechange observing failed
or disconnected (lines 49-60); negotiationError is the catch of startStream
(lines 104-114): it sets the error status and, when the retryCount captured
at schedule time is below MAX_RETRIES, schedules a backoff timer that will
increment retryCount later; backoffFire is such a scheduled timer firing:
it applies the functional update prev + 1 to the then-current retryCount,
with no further guard; manualRetry is the retry button (line 154). -/
inductive RetryEvent
  | attemptStart
  | trackReceived
  | connDrop
  | negotiationError (msg : String)
  | backoffFire
  | manualRetry
deriving DecidableEq, Repr

/-- Recognizer for the backoff-timer-fire event. -/
def isBackoffFire : RetryEvent → Bool
  | RetryEvent.backoffFire => true
  | _ => false

/-- Transition function of the retry state machine, a direct translation of
the handlers cited on each RetryEvent constructor. The backoff increment of
the catch is split into its schedule (negotiationError, where the source
evaluates the guard) and its fire (backoffFire, where the source applies
the unguarded functional increment); a fire with no timer pending cannot
occur and is a no-op. -/
def retryStep (st : RetryState) (e : RetryEvent) : RetryState :=
  match e with
  | RetryEvent.attemptStart => { st with status := ConnStatus.connecting, err := none }
  | RetryEvent.trackReceived => { st with status := ConnStatus.connected, retryCount := 0 }
  | RetryEvent.connDrop =>
      if st.retryCount < MAX_RETRIES then
        { st with retryCount := st.retryCount + 1 }
      else
        { st with status := ConnStatus.failed
                  err := some "Connection lost. Please retry manually." }
  | RetryEvent.negotiationError msg =>
      if st.retryCount < MAX_RETRIES then
        { st with status := ConnStatus.error, err := some msg, pending := st.pending + 1 }
      else
        { st with status := ConnStatus.error, err := some msg }
  | RetryEvent.backoffFire =>
      match st.pending with
      | 0 => st
      | n + 1 => { st with retryCount := st.retryCount + 1, pending := n }
  | RetryEvent.manualRetry =>
      { st with retryCount := 0, status := ConnStatus.connecting, err := none }

/-- Initial retry state: counter zero, connecting, no pending timer. -/
def initRetry : RetryState :=
  { retryCount := 0, status := ConnStatus.connecting, err := none, pending := 0 }

/-- Run the retry state machine over a list of events. -/
def runRetry (evs : List RetryEvent) : RetryState :=
  evs.foldl retryStep initRetry

/-- State of the peer-connection ref of one player instance (one logical
source): identifiers of connections created and not yet closed, the
identifier held by the ref, and a fresh-identifier counter. -/
structure StreamMgr where
  liveIds : List Nat
  current : Option Nat
  nextId : Nat
deriving DecidableEq, Repr

/-- Initial ref state: no connection yet. -/
def initMgr : StreamMgr := { liveIds := [], current := none, nextId := 0 }

/-- Session management at the head of startStream (lines 18-30): close the
prior connection held by the ref, if any, then create a fresh one and store
it in the ref. -/
def startSession (m : StreamMgr) : StreamMgr :=
  let l := match m.current with
    | some i => m.liveIds.erase i
    | none => m.liveIds
  { liveIds := l ++ [m.nextId], current := some m.nextId, nextId := m.nextId + 1 }

/-- Effect cleanup on unmount or source change (lines 120-124): close the
connection held by the ref. -/
def closeCurrent (m : StreamMgr) : StreamMgr :=
  match m.current with
  | some i => { m with liveIds := m.liveIds.erase i }
  | none => m

/-- Events acting on the peer-connection ref. -/
inductive MgrEvent
  | start
  | unmount
deriving DecidableEq, Repr

/-- Transition function of the ref state. -/
def mgrStep (m : StreamMgr) : MgrEvent → StreamMgr
  | MgrEvent.start => startSession m
  | MgrEvent.unmount => closeCurrent m

/-- Run the ref state machine over a list of events. -/
def runMgr (evs : List MgrEvent) : StreamMgr :=
  evs.foldl mgrStep initMgr

/-- Invariant of the ref state: either no connection is open, or exactly the
one held by the ref is. -/
def MgrInv (m : StreamMgr) : Prop :=
  m.liveIds = [] ∨ ∃ i, m.current = some i ∧ m.liveIds = [i]

/-- State of one peer session as seen by the signaling exchange. -/
structure RTCSession where
  signalingClosed : Bool
  remoteDescription : Option String
deriving DecidableEq, Repr

/-- Continuation of startStream after the signaling answer arrives (lines
94-102): if the session was closed while the exchange was in flight, return
early without touching anything; otherwise apply the remote description.
Both branches return normally (no throw from this fragment). -/
def applyAnswer (pc : RTCSession) (answer : String) (ui : PlayerState) :
    Except String (RTCSession × PlayerState) :=
  if pc.signalingClosed then Except.ok (pc, ui)
  else Except.ok ({ pc with remoteDescription := some answer }, ui)

/-- Sample health slice with status "Online". -/
def sampleHealth : Health :=
  { status := "Online", models_loaded := true, sumo_running := true
    emergency_active := false, emergency_direction := none }

/-- Sample cached sumo slot holding a viz payload. -/
def p0 : SumoViz := { vehicle_count := none, action := none, viz := some "V0" }

/-- Sample cached summary with narrative text and the sample sumo slot. -/
def sum0 : Summary := { narrative := some "All clear", context := some [], sumo := some p0 }

/-- Sample shared state used by the concrete instantiations. -/
def st0 : SyncState :=
  { data := [("North", 2)]
    health := sampleHealth
    yoloAction := none
    summary := some sum0
    autoStep := true
    alerts := { current := none, history := [] }
    violations := { violations := [], active_stationary := [] }
    emergency := { active := false, direction := none, remaining_seconds := 0 }
    simSpeed := 1000 }

/-- Sample step response carrying counts and an action but no viz key. -/
def m0 : Metrics := { vehicle_count := some [("North", 4)], action := some "GO", viz := none }

/-- Sample manager state holding exactly one live connection. -/
def mgr1 : StreamMgr := { liveIds := [0], current := some 0, nextId := 1 }

/-- Sample peer session that is already closed. -/
def pcClosed : RTCSession := { signalingClosed := true, remoteDescription := none }

/-- One retry transition raises the counter past a bound of
MAX_RETRIES plus slack only when it is a backoff-timer fire, which adds at
most one. -/
theorem retryStep_bound (st : RetryState) (e : RetryEvent) (k : Nat)
    (h : st.retryCount ≤ MAX_RETRIES + k) :
    (retryStep st e).retryCount
      ≤ MAX_RETRIES + k + (if isBackoffFire e then 1 else 0) := by
  cases e <;>
    simp only [retryStep, isBackoffFire, MAX_RETRIES] at h ⊢ <;>
    (try split) <;> (try simp) <;> omega

/-- Folding retry transitions keeps the counter within MAX_RETRIES plus the
number of backoff-timer fires in the trace. -/
theorem foldl_retry_bound (evs : List RetryEvent) :
    ∀ st k, st.retryCount ≤ MAX_RETRIES + k →
      (evs.foldl retryStep st).retryCount
        ≤ MAX_RETRIES + k + evs.countP isBackoffFire := by
  induction evs with
  | nil => intro st k h; simpa using h
  | cons e evs ih =>
      intro st k h
      have h1 := retryStep_bound st e k h
      cases hbe : isBackoffFire e
      · rw [hbe] at h1
        simp at h1
        have h2 := ih (retryStep st e) k h1
        simp [List.foldl, List.countP_cons, hbe]
        omega
      · rw [hbe] at h1
        simp at h1
        have h2 := ih (retryStep st e) (k + 1) (by omega)
        simp [List.foldl, List.countP_cons, hbe]
        omega

/-- startSession preserves the single-live-connection invariant. -/
theorem startSession_inv (m : StreamMgr) (h : MgrInv m) : MgrInv (startSession m) := by
  right
  refine ⟨m.nextId, rfl, ?_⟩
  unfold startSession
  rcases h with h | ⟨i, hc, hl⟩
  · cases hcur : m.current <;> simp [h, hcur]
  · simp [hc, hl]

/-- closeCurrent preserves the single-live-connection invariant. -/
theorem closeCurrent_inv (m : StreamMgr) (h : MgrInv m) : MgrInv (closeCurrent m) := by
  unfold closeCurrent
  cases hcur : m.current with
  | none => simpa using h
  | some j =>
      rcases h with h | ⟨i, hc, hl⟩
      · left; simp [h]
      · left
        rw [hcur] at hc
        injection hc with hij
        subst hij
        simp [hl]

/-- Every reachable manager state satisfies the invariant. -/
theorem runMgr_inv (evs : List MgrEvent) : MgrInv (runMgr evs) := by
  have gen : ∀ (l : List MgrEvent) (m : StreamMgr), MgrInv m → MgrInv (l.foldl mgrStep m) := by
    intro l
    induction l with
    | nil => intro m h; simpa using h
    | cons e l ih =>
        intro m h
        refine ?_
        have hstep : MgrInv (mgrStep m e) := by
          cases e
          · exact startSession_inv m h
          · exact closeCurrent_inv m h
        simpa [List.foldl] using ih (mgrStep m e) hstep
  exact gen evs initMgr (Or.inl rfl)

/-- C1 counterexample: a failing health fetch (medium tier) does not leave
the health slice exactly as it was before the tick: the status field flips
from "Online" to "Offline", so the state differs from the pre-tick state. -/
theorem fetchHealth_failure_changes_slice :
    st0.health.status = "Online"
      ∧ (fetchHealth (Except.error ()) st0).health.status = "Offline"
      ∧ fetchHealth (Except.error ()) st0 ≠ st0 := by
  refine ⟨rfl, rfl, ?_⟩
  decide

/-- C1 (amended): every failing fetch of the fast tier (counts, decision,
alerts, emergency) and of the slow tier (summary), and the failing
violations fetch of the medium tier, leave the shared state exactly
unchanged; the failing health fetch keeps every health field except the
status, which it replaces with "Offline". In all cases the handler returns
normally (a total function in the embedding): no exception escapes the tick
and no other tier is touched. -/
theorem poll_failure_semantics :
    (∀ e st, fetchData (Except.error e) st = st)
  ∧ (∀ e st, fetchYoloAction (Except.error e) st = st)
  ∧ (∀ e st, fetchAlerts (Except.error e) st = st)
  ∧ (∀ e st, fetchEmergency (Except.error e) st = st)
  ∧ (∀ e st, fetchViolations (Except.error e) st = st)
  ∧ (∀ e st, fetchSummary (Except.error e) st = st)
  ∧ (∀ e st, fetchHealth (Except.error e) st
      = { st with health := { st.health with status := "Offline" } }) :=
  ⟨fun e st => rfl, fun e st => rfl, fun e st => rfl, fun e st => rfl,
   fun e st => rfl, fun e st => rfl, fun e st => rfl⟩

/-- C2 counterexample: when the emergency write fails, triggerEmergency
leaves the shared state unchanged but resolves normally with Except.ok
(the catch logs and swallows the error), so the failure is not reported to
the awaiting caller, contrary to the claim. -/
theorem triggerEmergency_failure_not_reported :
    triggerEmergency (Except.error ()) (Except.error ()) (Except.error ()) st0
      = (st0, Except.ok ()) := rfl

/-- C2 (amended): on a successful write the emergency and health reads are
re-polled immediately, their outcomes applied to the shared state through
fetchEmergency and fetchHealth; on a failed write the shared state is left
unchanged and the failure is only logged locally: the promise the caller
awaits resolves normally in both branches. -/
theorem triggerEmergency_semantics :
    (∀ u er hr st, triggerEmergency (Except.ok u) er hr st
        = (fetchHealth hr (fetchEmergency er st), Except.ok ()))
  ∧ (∀ e er hr st, triggerEmergency (Except.error e) er hr st = (st, Except.ok ())) :=
  ⟨fun u er hr st => rfl, fun e er hr st => rfl⟩

/-- C3: the auto-step interval is installed exactly while autoStep is
enabled and health reports the simulation running, with period simSpeed;
enabling auto-step while the simulation is not running installs no interval
(so no step is ever invoked); after any dependency history the installed
interval is the one determined by the latest dependency values, so a
simSpeed change while active replaces the interval with one at the new
period, and the interval disappears as soon as either condition turns
false. -/
theorem autoStep_interval_policy :
    (∀ s, autoStepInterval true true s = some s)
  ∧ (∀ a s, autoStepInterval a false s = none)
  ∧ (∀ r s, autoStepInterval false r s = none)
  ∧ (∀ ds d, runAutoStepEffects (ds ++ [d])
        = autoStepInterval d.autoStep d.sumoRunning d.simSpeed) := by
  refine ⟨fun s => rfl, ?_, fun r s => rfl, ?_⟩
  · intro a s; cases a <;> rfl
  · intro ds d; simp [runAutoStepEffects, List.foldl_append]

/-- C4: a step invocation whose remote call fails sets autoStep to false in
the resulting state (and touches nothing else), so the auto-step loop
self-disables and repeated failures cannot spin. -/
theorem runSimStep_failure_disables_autoStep :
    ∀ e st, runSimStep (Except.error e) st = { st with autoStep := false } :=
  fun e st => rfl

/-- C5 counterexample: the cached summary holds viz "V0" in its sumo slot
and the step response m0 succeeds while carrying no viz key; after
runSimStep the cached viz is gone (the code assigns viz from the response
unconditionally), so a field of the previously cached summary that is
absent from the response did not keep its prior value. -/
theorem runSimStep_clobbers_prior_viz :
    (st0.summary.bind Summary.sumo).bind SumoViz.viz = some "V0"
      ∧ ((runSimStep (Except.ok (some m0)) st0).summary.bind Summary.sumo).bind SumoViz.viz
          = none :=
  ⟨rfl, rfl⟩

/-- C5 (amended): on a successful step with a truthy response, the vehicle
counts of the response overwrite the data slice immediately (an absent
counts key yields the empty object), the action overwrites the decision
record, and the response is shallow-merged into the cached summary so that
every previously cached field absent from the response keeps its prior
value (the narrative in particular), with one exception: the sumo viz field
is overwritten unconditionally with the viz of the response, hence cleared
when the response carries none. -/
theorem runSimStep_success_merge :
    ∀ m st s p, st.summary = some s → s.sumo = some p →
      (runSimStep (Except.ok (some m)) st).data = m.vehicle_count.getD []
      ∧ (runSimStep (Except.ok (some m)) st).yoloAction
          = some { action := m.action, source := "SUMO", counts := m.vehicle_count }
      ∧ (runSimStep (Except.ok (some m)) st).summary
          = some { narrative := s.narrative
                   context := some (s.context.getD [])
                   sumo := some { vehicle_count := m.vehicle_count <|> p.vehicle_count
                                  action := m.action <|> p.action
                                  viz := m.viz } } := by
  intro m st s p hs hp
  refine ⟨rfl, rfl, ?_⟩
  simp [runSimStep, patchSummary, mergeSumo, hs, hp]

/-- C5 witness: the amended merge theorem instantiated at the sample state
and the sample response. -/
theorem runSimStep_success_merge_witness :
    st0.summary = some sum0 ∧ sum0.sumo = some p0
      ∧ ((runSimStep (Except.ok (some m0)) st0).data = m0.vehicle_count.getD []
        ∧ (runSimStep (Except.ok (some m0)) st0).yoloAction
            = some { action := m0.action, source := "SUMO", counts := m0.vehicle_count }
        ∧ (runSimStep (Except.ok (some m0)) st0).summary
            = some { narrative := sum0.narrative
                     context := some (sum0.context.getD [])
                     sumo := some { vehicle_count := m0.vehicle_count <|> p0.vehicle_count
                                    action := m0.action <|> p0.action
                                    viz := m0.viz } }) :=
  ⟨rfl, rfl, runSimStep_success_merge m0 st0 sum0 p0 rfl rfl⟩

/-- C6 counterexample: with the fast tier period of 1000 ms and a fetch
latency of 3000 ms, the second timer fire happens at 2000 ms, strictly
before the first fire's fetch settles at 4000 ms, and at that instant the
fetches of ticks 0 and 1 are both in flight: ticks of a single tier do
overlap, contrary to the claim. -/
theorem fast_tier_ticks_overlap :
    fastFire 1 < fastFire 0 + 3000
      ∧ inFlight (fastFire 0) 3000 (fastFire 1)
      ∧ inFlight (fastFire 1) 3000 (fastFire 1) := by
  decide

/-- C6 (amended): tier timers fire at a fixed cadence independent of fetch
settlement: the fast and summary tiers fire every period through
setInterval, and the medium tier schedules its next timeout as soon as its
tick starts, at the delay chosen from the sumo-running flag observed at
that tick; none of the tiers waits for the previous fetch to settle, so a
remote slower than the period yields overlapping in-flight fetches of the
same tier. -/
theorem tier_fixed_cadence :
    (∀ n, fastFire (n + 1) = fastFire n + fastPeriod)
  ∧ (∀ n, summaryFire (n + 1) = summaryFire n + summaryPeriod)
  ∧ (∀ running n, mediumFire running (n + 1)
        = mediumFire running n + mediumDelay (running n)) := by
  refine ⟨?_, ?_, fun running n => rfl⟩
  · intro n; simp [fastFire, setIntervalFire, fastPeriod]; ring
  · intro n; simp [summaryFire, setIntervalFire, summaryPeriod]; ring

/-- C7 counterexample: the catch of startStream evaluates its retry guard
at schedule time and applies the increment only when the backoff timer
fires, and nothing ever cancels that timer. In this trace two connection
drops raise the counter to 2, a negotiation error at counter 2 schedules a
backoff increment, the operator clicks manual retry (counter back to 0),
three further drops re-climb the counter to MAX_RETRIES, and then the stale
backoff timer fires its unguarded increment: retryCount reaches
MAX_RETRIES + 1 = 4, so the counter does exceed MAX_RETRIES. -/
theorem webrtc_retry_budget_exceeded :
    (runRetry [RetryEvent.connDrop, RetryEvent.connDrop,
      RetryEvent.negotiationError "network error", RetryEvent.manualRetry,
      RetryEvent.connDrop, RetryEvent.connDrop, RetryEvent.connDrop,
      RetryEvent.backoffFire]).retryCount = MAX_RETRIES + 1 := rfl

/-- C7 (amended): a received track (successful connection) resets the retry
counter to zero; four consecutive connection-state failures perform exactly
MAX_RETRIES automatic retry increments while still attempting and the
fourth settles the player into the failed status requiring manual
intervention; a manual retry resets the counter to zero and re-attempts the
connection; and the counter is bounded by MAX_RETRIES plus the number of
deferred backoff-timer fires in the trace, so it never exceeds MAX_RETRIES
on any trace in which no scheduled backoff timer fires stale, but each
uncancelled timer firing can push it one past the budget. -/
theorem webrtc_retry_policy_amended :
    (∀ evs, (runRetry evs).retryCount ≤ MAX_RETRIES + evs.countP isBackoffFire)
  ∧ (∀ st, (retryStep st RetryEvent.trackReceived).retryCount = 0)
  ∧ runRetry [RetryEvent.connDrop, RetryEvent.connDrop, RetryEvent.connDrop]
      = { retryCount := MAX_RETRIES, status := ConnStatus.connecting
          err := none, pending := 0 }
  ∧ runRetry [RetryEvent.connDrop, RetryEvent.connDrop, RetryEvent.connDrop,
      RetryEvent.connDrop]
      = { retryCount := MAX_RETRIES, status := ConnStatus.failed
          err := some "Connection lost. Please retry manually.", pending := 0 }
  ∧ (∀ st, retryStep st RetryEvent.manualRetry
      = { st with retryCount := 0, status := ConnStatus.connecting, err := none }) := by
  refine ⟨?_, fun st => rfl, rfl, rfl, fun st => rfl⟩
  intro evs
  have h := foldl_retry_bound evs initRetry 0 (by decide)
  simpa using h

/-- C8: over every event trace of one player instance at most one created
connection is unclosed at any time, and starting a new attempt while a
prior connection is live first closes that prior connection, leaving the
freshly created one as the only live connection. -/
theorem webrtc_single_live_session :
    (∀ evs, (runMgr evs).liveIds.length ≤ 1)
  ∧ (∀ m i, m.current = some i → m.liveIds = [i] →
      (startSession m).liveIds = [m.nextId]) := by
  constructor
  · intro evs
    rcases runMgr_inv evs with h | ⟨i, _, hl⟩
    · simp [h]
    · simp [hl]
  · intro m i hc hl
    unfold startSession
    simp [hc, hl]

/-- C8 witness: the closes-prior clause instantiated at a manager holding
exactly one live connection. -/
theorem webrtc_single_live_session_witness :
    mgr1.current = some 0 ∧ mgr1.liveIds = [0]
      ∧ (startSession mgr1).liveIds = [mgr1.nextId] :=
  ⟨rfl, rfl, webrtc_single_live_session.2 mgr1 0 rfl rfl⟩

/-- C9: if the peer session is already closed when the signaling answer
arrives, the negotiation continuation aborts before applying the remote
description: the session and the player state are returned exactly
unchanged and the result is a normal return, not an exception. -/
theorem applyAnswer_closed_aborts :
    ∀ pc answer ui, pc.signalingClosed = true →
      applyAnswer pc answer ui = Except.ok (pc, ui) := by
  intro pc answer ui h
  simp [applyAnswer, h]

/-- C9 witness: the abort theorem instantiated at a closed session. -/
theorem applyAnswer_closed_aborts_witness :
    pcClosed.signalingClosed = true
      ∧ applyAnswer pcClosed "remote-sdp" initPlayer = Except.ok (pcClosed, initPlayer) :=
  ⟨rfl, applyAnswer_closed_aborts pcClosed "remote-sdp" initPlayer rfl⟩

/-- C10: a step call that resolves with a falsy response body leaves every
piece of the shared state exactly as it was before the call. -/
theorem runSimStep_falsy_response_noop :
    ∀ st, runSimStep (Except.ok none) st = st :=
  fun st => rfl
